import Mathlib

/-!
Shallow embedding of the Waterlogging Route Checker (`src/App.jsx`).

The pure helpers (`riskLevel`, `sampleLineString`) are translated directly
from the source.  The network-dependent functions (`checkWaterAroundPoint`,
`fetchPrecipitationLastHours`, `geocode`, `getRoute`) are modelled as
functions of the external responses they receive; the pipeline
`handleCheckRoute` runs over an `Env` that supplies those responses and
returns the ordered list of observable effects (React state updates and
outbound provider calls) that the run performs.  JS numbers are modelled as
rationals.
-/

namespace Waterlogging

/-- A geographic coordinate, as the `{ lat, lon }` objects of `App.jsx`. -/
structure Coordinate where
  lat : ℚ
  lon : ℚ
  deriving DecidableEq, Repr

/-- `riskLevel(water, rain)` from `App.jsx` lines 138-142:
`if (water && rain > 10) return "High";`
`if (water || rain > 5) return "Medium";`
`return "Low";` -/
def riskLevel (water : Bool) (rain : ℚ) : String :=
  if water = true ∧ rain > 10 then "High"
  else if water = true ∨ rain > 5 then "Medium"
  else "Low"

/-- The index-striding loop of `sampleLineString` (`App.jsx` lines 99-105):
`for (let i = 0; i < coords.length; i += 10) samples.push(...)`,
started at index `i`. -/
def sampleAux (coords : List Coordinate) (i : Nat) : List Coordinate :=
  if h : i < coords.length then coords[i] :: sampleAux coords (i + 10) else []
termination_by coords.length - i
decreasing_by omega

/-- `sampleLineString(geojson)` from `App.jsx` lines 99-105: selects every
10th vertex of `geojson.coordinates`, starting at index 0.  The source's
`spacingMeters = 300` parameter is unused by its body and is omitted. -/
def sampleLineString (coords : List Coordinate) : List Coordinate :=
  sampleAux coords 0

/-- The observable part of the Overpass HTTP response consumed by
`checkWaterAroundPoint`: the `res.ok` flag and, when relevant, the parse of
the body — `Except.error` models `res.json()` throwing, and the inner
`Option` is the possibly-missing `elements` array (elements themselves are
never inspected, only counted, so they are modelled as `Unit`). -/
structure WaterResponse where
  ok : Bool
  body : Except String (Option (List Unit))
  deriving Repr

/-- `checkWaterAroundPoint` (`App.jsx` lines 107-123) as a function of the
Overpass response: `if (!res.ok) return false;` then
`return data.elements && data.elements.length > 0;` — a missing `elements`
field yields a falsy value, modelled as `false`, while a body-parse throw
propagates to the caller.  The `radiusMeters = 60` parameter only shapes
the outbound query text and is omitted. -/
def checkWaterAroundPoint (res : WaterResponse) : Except String Bool :=
  if !res.ok then .ok false
  else
    match res.body with
    | .error e => .error e
    | .ok none => .ok false
    | .ok (some elements) => .ok (decide (elements.length > 0))

/-- The observable outcome of the Open-Meteo fetch consumed by
`fetchPrecipitationLastHours`: the fetch or `res.json()` may throw
(`fetchError`), the parsed body may lack `hourly` (`noHourly`), `hourly`
may lack `precipitation` (`noPrecipitation`: its `.slice` throws and the
`catch` absorbs it), or an hourly precipitation series is available. -/
inductive PrecipResponse where
  | fetchError
  | noHourly
  | noPrecipitation
  | values (precipitation : List ℚ)
  deriving DecidableEq, Repr

/-- Is this response one of the soft-failure cases absorbed by the
`try/catch` or the `!data.hourly` guard? -/
def PrecipResponse.isSoftFailure : PrecipResponse → Bool
  | .values _ => false
  | _ => true

/-- `fetchPrecipitationLastHours` (`App.jsx` lines 125-136):
`data.hourly.precipitation.slice(-3)` summed by
`prec.reduce((a, b) => a + b, 0)`; every failure path returns `0`.
`slice(-3)` keeps the last `min 3 len` entries, i.e. drops `len - 3`. -/
def fetchPrecipitationLastHours : PrecipResponse → ℚ
  | .fetchError => 0
  | .noHourly => 0
  | .noPrecipitation => 0
  | .values precipitation =>
      (precipitation.drop (precipitation.length - 3)).foldl (· + ·) 0

/-- Models `Number.prototype.toFixed(1)` for the nonnegative values the
pipeline formats: `n` is the floor of `10 * x + 1 / 2` (round half up to
one decimal, written on `x.num`/`x.den` so that it evaluates), printed as
`⟨integer part⟩.⟨one digit⟩`. -/
def toFixed1 (x : ℚ) : String :=
  let n : ℤ := (20 * x.num + (x.den : ℤ)) / (2 * (x.den : ℤ))
  toString (n / 10) ++ "." ++ toString (n % 10)

/-- One observable effect of a `handleCheckRoute` run: a React state update
(`setStatus`, `setChecking`, `setRouteGeo`) or an outbound provider call
(geocoding, routing, Overpass water query, Open-Meteo rain query).
Leaflet marker drawing is rendering-only and is not recorded. -/
inductive Event where
  | setStatus (s : String)
  | setChecking (b : Bool)
  | setRouteGeo (geometry : List Coordinate)
  | geocodeCall (address : String)
  | routeCall (a b : Coordinate)
  | waterCall (p : Coordinate)
  | precipCall (p : Coordinate)
  deriving DecidableEq, Repr

def Event.isRouteCall : Event → Bool
  | .routeCall _ _ => true
  | _ => false

def Event.isWaterCall : Event → Bool
  | .waterCall _ => true
  | _ => false

def Event.isPrecipCall : Event → Bool
  | .precipCall _ => true
  | _ => false

def Event.isSetChecking : Event → Bool
  | .setChecking _ => true
  | _ => false

def Event.isSetStatus : Event → Bool
  | .setStatus _ => true
  | _ => false

/-- The external world of one run: what each provider call would return.
`geocode` is `Except.error` when the Nominatim fetch itself throws and
`Except.ok none` when it returns zero candidates (`geocode` returns
`null`, `App.jsx` line 74); `route` is `Except.error` when `getRoute`
throws (transport failure or `data.code !== "Ok"`, line 82); `water` and
`precip` give the per-coordinate responses consumed by
`checkWaterAroundPoint` and `fetchPrecipitationLastHours`. -/
structure Env where
  geocode : String → Except String (Option Coordinate)
  route : Coordinate → Coordinate → Except String (List Coordinate)
  water : Coordinate → WaterResponse
  precip : Coordinate → PrecipResponse

/-- The inputs of one run: the pinned coordinates (React state `origin`,
`dest`, set by map clicks) and the two address text fields. -/
structure RunInput where
  origin : Option Coordinate
  dest : Option Coordinate
  originAddr : String
  destAddr : String

/-- Endpoint resolution, `App.jsx` lines 149-150:
`origin || (await geocode(originAddr))` — a pinned coordinate short-circuits
and the geocoder is only consulted when no pin exists. -/
def resolveEndpoint (env : Env) (pinned : Option Coordinate) (addr : String) :
    Except String (Option Coordinate) :=
  match pinned with
  | some c => .ok (some c)
  | none => env.geocode addr

/-- The outbound calls endpoint resolution performs: none when a pinned
coordinate exists, one geocoding query otherwise. -/
def resolveEvents (pinned : Option Coordinate) (addr : String) : List Event :=
  match pinned with
  | some _ => []
  | none => [.geocodeCall addr]

/-- The per-sample loop of `handleCheckRoute` (`App.jsx` lines 167-179):
for each sample, await the water check (a throw there aborts the run),
OR the result into `waterDetected`, await the rain value and MAX it into
`maxRain`.  Returns the calls made and either the propagated error or the
final accumulator pair. -/
def runSamples (env : Env) :
    List Coordinate → Bool → ℚ → List Event × Except String (Bool × ℚ)
  | [], waterDetected, maxRain => ([], .ok (waterDetected, maxRain))
  | p :: ps, waterDetected, maxRain =>
    match checkWaterAroundPoint (env.water p) with
    | .error e => ([.waterCall p], .error e)
    | .ok hasWater =>
      let rest := runSamples env ps (waterDetected || hasWater)
        (max maxRain (fetchPrecipitationLastHours (env.precip p)))
      (.waterCall p :: .precipCall p :: rest.1, rest.2)

/-- The final status line (`App.jsx` lines 181-184). -/
def statusString (risk : String) (waterDetected : Bool) (maxRain : ℚ) :
    String :=
  "Risk Level: " ++ risk ++ ". Mapped water: " ++
    (if waterDetected then "Yes" else "No") ++
    ", Rain (last 3h): " ++ toFixed1 maxRain ++ " mm"

/-- The `try` block of `handleCheckRoute` (`App.jsx` lines 145-184):
resolve both endpoints (`if (!from || !to) throw new Error("Invalid
locations")`), fetch the route, sample it and run the per-sample loop.
Returns the events the block emits together with either the thrown error
message or the `(risk, waterDetected, maxRain)` triple of the success
status. -/
def tryBody (env : Env) (inp : RunInput) :
    List Event × Except String (String × Bool × ℚ) :=
  let evF := resolveEvents inp.origin inp.originAddr
  match resolveEndpoint env inp.origin inp.originAddr with
  | .error e => (evF, .error e)
  | .ok fromOpt =>
    let evT := resolveEvents inp.dest inp.destAddr
    match resolveEndpoint env inp.dest inp.destAddr with
    | .error e => (evF ++ evT, .error e)
    | .ok toOpt =>
      match fromOpt, toOpt with
      | some a, some b =>
        match env.route a b with
        | .error e =>
          (evF ++ evT ++ [.setStatus "Getting route...", .routeCall a b],
            .error e)
        | .ok geometry =>
          let res := runSamples env (sampleLineString geometry) false 0
          (evF ++ evT ++
            [.setStatus "Getting route...", .routeCall a b,
             .setRouteGeo geometry,
             .setStatus "Checking water and rainfall..."] ++ res.1,
            match res.2 with
            | .error e => .error e
            | .ok wr => .ok (riskLevel wr.1 wr.2, wr.1, wr.2))
      | _, _ => (evF ++ evT, .error "Invalid locations")

/-- `handleCheckRoute` (`App.jsx` lines 144-190) as the ordered list of
observable effects of one run: `setStatus(""); setChecking(true);` then the
`try` body, then the `catch` status (`"Error: " + e.message`) or the final
risk status, and `finally { setChecking(false) }`. -/
def handleCheckRoute (env : Env) (inp : RunInput) : List Event :=
  let body := tryBody env inp
  [Event.setStatus "", Event.setChecking true] ++ body.1 ++
    [Event.setStatus
      (match body.2 with
        | .error e => "Error: " ++ e
        | .ok r => statusString r.1 r.2.1 r.2.2),
     Event.setChecking false]

/-- The value of the React `status` state after a list of effects: the last
`setStatus` wins (`none` = never set). -/
def finalStatus (evs : List Event) : Option String :=
  evs.foldl
    (fun acc e =>
      match e with
      | .setStatus s => some s
      | _ => acc)
    none

/-- The value of the React `checking` (in-flight) flag after a list of
effects: the last `setChecking` wins (initial value `false`, `App.jsx`
line 15). -/
def finalChecking (evs : List Event) : Bool :=
  evs.foldl
    (fun acc e =>
      match e with
      | .setChecking b => b
      | _ => acc)
    false

/-- `App.jsx` line 209: `<button onClick={handleCheckRoute}
disabled={checking}>` — a new run may start exactly when the in-flight
flag is down. -/
def buttonDisabled (checking : Bool) : Bool := checking

/-- Fixture world for witnesses: route found, every per-sample check
failing soft (water fetch not ok, rain fetch throwing). -/
def envSoft : Env :=
  ⟨fun _ => .ok none, fun _ _ => .ok [⟨2, 2⟩],
    fun _ => ⟨false, .ok none⟩, fun _ => .fetchError⟩

/-- Fixture world for witnesses: a 5-vertex route whose samples see water
nearby and 4 mm of rain in each of the last three hours. -/
def envHigh : Env :=
  ⟨fun _ => .ok none,
    fun _ _ => .ok [⟨1, 1⟩, ⟨2, 2⟩, ⟨3, 3⟩, ⟨4, 4⟩, ⟨5, 5⟩],
    fun _ => ⟨true, .ok (some [()])⟩, fun _ => .values [4, 4, 4]⟩

/-- Fixture world for witnesses: the geocoder always returns zero
candidates. -/
def envNotFound : Env :=
  ⟨fun _ => .ok none, fun _ _ => .ok [],
    fun _ => ⟨false, .ok none⟩, fun _ => .fetchError⟩

/-- Fixture world for witnesses: the routing call throws
`No route found`. -/
def envRouteFail : Env :=
  ⟨fun _ => .ok none, fun _ _ => .error "No route found",
    fun _ => ⟨false, .ok none⟩, fun _ => .fetchError⟩

/-- Fixture input with both endpoints pinned on the map. -/
def inpPinned : RunInput := ⟨some ⟨1, 1⟩, some ⟨3, 3⟩, "", ""⟩

/-- Fixture input with no pins and two address texts. -/
def inpAddresses : RunInput := ⟨none, none, "A", "B"⟩

/-! Helper lemmas -/

theorem sampleAux_getElem? (coords : List Coordinate) (i j : Nat) :
    (sampleAux coords i)[j]? = coords[i + 10 * j]? := by
  rw [sampleAux]
  by_cases h : i < coords.length
  · rw [dif_pos h]
    cases j with
    | zero => simp [List.getElem?_eq_getElem h]
    | succ j =>
        have ih := sampleAux_getElem? coords (i + 10) j
        have harith : i + 10 * (j + 1) = i + 10 + 10 * j := by ring
        simpa [harith] using ih
  · rw [dif_neg h]
    have h1 : coords.length ≤ i + 10 * j := by omega
    simp [List.getElem?_eq_none h1]
termination_by coords.length - i
decreasing_by omega

theorem sampleAux_length_le (coords : List Coordinate) (i : Nat) :
    (sampleAux coords i).length ≤ coords.length - i := by
  rw [sampleAux]
  by_cases h : i < coords.length
  · rw [dif_pos h]
    have ih := sampleAux_length_le coords (i + 10)
    simp only [List.length_cons]
    omega
  · rw [dif_neg h]
    simp
termination_by coords.length - i
decreasing_by omega

theorem checkWater_transport_fail (r : WaterResponse) (h : r.ok = false) :
    checkWaterAroundPoint r = .ok false := by
  simp [checkWaterAroundPoint, h]

theorem fetchPrecipitation_soft (r : PrecipResponse)
    (h : r.isSoftFailure = true) : fetchPrecipitationLastHours r = 0 := by
  cases r <;>
    simp_all [PrecipResponse.isSoftFailure, fetchPrecipitationLastHours]

theorem foldl_add_nonneg (l : List ℚ) (init : ℚ) (h0 : 0 ≤ init)
    (h : ∀ x ∈ l, 0 ≤ x) : 0 ≤ l.foldl (· + ·) init := by
  induction l generalizing init with
  | nil => simpa using h0
  | cons x xs ih =>
      simp only [List.foldl_cons]
      exact ih (init + x)
        (add_nonneg h0 (h x (by simp)))
        (fun y hy => h y (List.mem_cons_of_mem _ hy))

theorem finalStatus_append_status (l : List Event) (s : String) (b : Bool) :
    finalStatus (l ++ [Event.setStatus s, Event.setChecking b]) = some s := by
  simp [finalStatus, List.foldl_append]

theorem finalChecking_append_status (l : List Event) (s : String) (b : Bool) :
    finalChecking (l ++ [Event.setStatus s, Event.setChecking b]) = b := by
  simp [finalChecking, List.foldl_append]

/-- The status published by a run is the `catch` message on a hard failure
and the aggregated risk line on success. -/
theorem finalStatus_handleCheckRoute (env : Env) (inp : RunInput) :
    finalStatus (handleCheckRoute env inp) =
      some
        (match (tryBody env inp).2 with
          | .error e => "Error: " ++ e
          | .ok r => statusString r.1 r.2.1 r.2.2) := by
  simp only [handleCheckRoute]
  exact finalStatus_append_status _ _ _

theorem finalChecking_handleCheckRoute (env : Env) (inp : RunInput) :
    finalChecking (handleCheckRoute env inp) = false := by
  simp only [handleCheckRoute]
  exact finalChecking_append_status _ _ _

theorem resolveEvents_only_geocode (pinned : Option Coordinate)
    (addr : String) :
    ∀ e ∈ resolveEvents pinned addr,
      e.isSetChecking = false ∧ e.isSetStatus = false ∧
        e.isRouteCall = false ∧ e.isWaterCall = false ∧
        e.isPrecipCall = false := by
  cases pinned <;>
    simp [resolveEvents, Event.isSetChecking, Event.isSetStatus,
      Event.isRouteCall, Event.isWaterCall, Event.isPrecipCall]

theorem runSamples_events_are_calls (env : Env) (ps : List Coordinate)
    (w : Bool) (m : ℚ) :
    ∀ e ∈ (runSamples env ps w m).1,
      e.isSetChecking = false ∧ e.isSetStatus = false := by
  induction ps generalizing w m with
  | nil => simp [runSamples]
  | cons p ps ih =>
      simp only [runSamples]
      cases h : checkWaterAroundPoint (env.water p) with
      | error e =>
          simp [Event.isSetChecking, Event.isSetStatus]
      | ok hw =>
          intro e he
          simp only [List.mem_cons] at he
          rcases he with rfl | rfl | he
          · simp [Event.isSetChecking, Event.isSetStatus]
          · simp [Event.isSetChecking, Event.isSetStatus]
          · exact ih _ _ e he

theorem tryBody_no_setChecking (env : Env) (inp : RunInput) :
    ∀ e ∈ (tryBody env inp).1, e.isSetChecking = false := by
  have hO := fun e he =>
    (resolveEvents_only_geocode inp.origin inp.originAddr e he).1
  have hD := fun e he =>
    (resolveEvents_only_geocode inp.dest inp.destAddr e he).1
  simp only [tryBody]
  split
  · exact hO
  · split
    · simp only [List.forall_mem_append]
      exact ⟨hO, hD⟩
    · split
      · split
        · simp only [List.forall_mem_append, List.forall_mem_cons,
            List.forall_mem_singleton]
          refine ⟨⟨hO, hD⟩, ?_, ?_⟩ <;> simp [Event.isSetChecking]
        · simp only [List.forall_mem_append, List.forall_mem_cons,
            List.forall_mem_singleton]
          refine ⟨⟨⟨hO, hD⟩, ?_, ?_, ?_, ?_⟩,
            fun e he =>
              (runSamples_events_are_calls env _ false 0 e he).1⟩ <;>
            simp [Event.isSetChecking]
      · simp only [List.forall_mem_append]
        exact ⟨hO, hD⟩

/-- A per-sample loop whose every water check sees a failed transport and
whose every rain check fails soft leaves the accumulators at their
defaults. -/
theorem runSamples_soft (env : Env) (ps : List Coordinate)
    (h : ∀ p ∈ ps, (env.water p).ok = false ∧
      (env.precip p).isSoftFailure = true) :
    (runSamples env ps false 0).2 = .ok (false, 0) := by
  induction ps with
  | nil => rfl
  | cons p ps ih =>
      have hcw := checkWater_transport_fail _ (h p (by simp)).1
      have hfp := fetchPrecipitation_soft _ (h p (by simp)).2
      simp only [runSamples, hcw, hfp, Bool.or_self, max_self]
      exact ih (fun q hq => h q (List.mem_cons_of_mem _ hq))

/-- A UI state update is not a provider call. -/
theorem not_provider_call_of_ui (e : Event)
    (h : e.isSetStatus = true ∨ e.isSetChecking = true) :
    e.isRouteCall = false ∧ e.isWaterCall = false ∧
      e.isPrecipCall = false := by
  cases e <;>
    simp_all [Event.isSetStatus, Event.isSetChecking, Event.isRouteCall,
      Event.isWaterCall, Event.isPrecipCall]

/-- Every event of a run is an event of its `try` body or one of the
surrounding UI updates. -/
theorem handleCheckRoute_events (env : Env) (inp : RunInput) :
    ∀ e ∈ handleCheckRoute env inp,
      e ∈ (tryBody env inp).1 ∨ e.isSetStatus = true ∨
        e.isSetChecking = true := by
  intro e he
  simp only [handleCheckRoute, List.append_assoc, List.cons_append,
    List.nil_append, List.mem_cons, List.mem_append, List.not_mem_nil,
    or_false] at he
  rcases he with rfl | rfl | he | rfl | rfl
  · exact Or.inr (Or.inl rfl)
  · exact Or.inr (Or.inr rfl)
  · exact Or.inl he
  · exact Or.inr (Or.inl rfl)
  · exact Or.inr (Or.inr rfl)

theorem foldl_checking_const :
    ∀ (l : List Event) (acc : Bool), (∀ e ∈ l, e.isSetChecking = false) →
      l.foldl
        (fun acc e =>
          match e with
          | .setChecking b => b
          | _ => acc)
        acc = acc := by
  intro l
  induction l with
  | nil => intro acc h; rfl
  | cons x xs ih =>
      intro acc h
      have hx := h x (by simp)
      cases x <;>
        first
        | exact ih acc fun e he => h e (List.mem_cons_of_mem _ he)
        | simp [Event.isSetChecking] at hx

/-! Claim theorems -/

/-- Claim C1: `riskLevel` is a pure total function; for every
`water ∈ {true, false}` and every `rain ≥ 0` it returns exactly one of
High / Medium / Low according to the decision table evaluated in order
(`water ∧ rain > 10 ⇒ High`; otherwise `water ∨ rain > 5 ⇒ Medium`;
otherwise Low); in particular `riskLevel true 11 = High`,
`riskLevel false 6 = Medium`, `riskLevel true 3 = Medium` and
`riskLevel false 0 = Low`. -/
theorem riskLevel_decision_table (water : Bool) (rain : ℚ) (h : 0 ≤ rain) :
    (riskLevel water rain = "High" ∨ riskLevel water rain = "Medium" ∨
        riskLevel water rain = "Low") ∧
    (riskLevel water rain = "High" ↔ water = true ∧ rain > 10) ∧
    (riskLevel water rain = "Medium" ↔
      ¬(water = true ∧ rain > 10) ∧ (water = true ∨ rain > 5)) ∧
    (riskLevel water rain = "Low" ↔
      ¬(water = true ∧ rain > 10) ∧ ¬(water = true ∨ rain > 5)) ∧
    riskLevel true 11 = "High" ∧ riskLevel false 6 = "Medium" ∧
    riskLevel true 3 = "Medium" ∧ riskLevel false 0 = "Low" := by
  refine ⟨?_, ?_, ?_, ?_, by norm_num [riskLevel], by norm_num [riskLevel],
    by norm_num [riskLevel], by norm_num [riskLevel]⟩ <;>
  · unfold riskLevel
    split_ifs with h1 h2 <;> simp_all

/-- Witness for C1 at `water = false`, `rain = 6`. -/
theorem riskLevel_decision_table_witness :
    (0 : ℚ) ≤ 6 ∧ riskLevel false 6 = "Medium" :=
  ⟨by norm_num,
    (riskLevel_decision_table false 6 (by norm_num)).2.2.2.2.2.1⟩

/-- Claim C2: `sampleLineString` returns exactly the vertices at indices
0, 10, 20, … of its input in original order (so it is order-preserving),
never returns more points than there are input vertices, always returns
the input's first vertex as its first element, and for every non-empty
path — in particular one shorter than the stride — returns at least the
first point. -/
theorem sampleLineString_spec (coords : List Coordinate) :
    (∀ j : Nat, (sampleLineString coords)[j]? = coords[10 * j]?) ∧
    (sampleLineString coords).length ≤ coords.length ∧
    (sampleLineString coords).head? = coords.head? ∧
    (∀ c cs, coords = c :: cs →
      c ∈ sampleLineString coords ∧ sampleLineString coords ≠ []) := by
  have hget : ∀ j : Nat, (sampleLineString coords)[j]? = coords[10 * j]? := by
    intro j
    simpa using sampleAux_getElem? coords 0 j
  refine ⟨hget, ?_, ?_, ?_⟩
  · simpa using sampleAux_length_le coords 0
  · cases coords with
    | nil => simp [sampleLineString, sampleAux]
    | cons c cs =>
        show (sampleAux (c :: cs) 0).head? = _
        rw [sampleAux]
        simp
  · intro c cs hcc
    subst hcc
    have h0 := hget 0
    simp only [Nat.mul_zero, List.getElem?_cons_zero] at h0
    constructor
    · exact List.getElem?_mem h0
    · intro hnil
      rw [hnil] at h0
      exact Option.noConfusion h0

/-- Witness for C2: a 2-vertex path (shorter than the stride) still
contains its first vertex and is non-empty. -/
theorem sampleLineString_spec_witness :
    (([⟨1, 2⟩, ⟨3, 4⟩] : List Coordinate) = ⟨1, 2⟩ :: [⟨3, 4⟩]) ∧
    (⟨1, 2⟩ : Coordinate) ∈ sampleLineString [⟨1, 2⟩, ⟨3, 4⟩] ∧
    sampleLineString [⟨1, 2⟩, ⟨3, 4⟩] ≠ [] :=
  ⟨rfl, (sampleLineString_spec [⟨1, 2⟩, ⟨3, 4⟩]).2.2.2 ⟨1, 2⟩ [⟨3, 4⟩] rfl⟩

/-- Claim C4: the water-proximity check returns `true` iff the spatial
query's result set is non-empty, and on transport failure (non-success
HTTP response) it returns `false` instead of propagating an error. -/
theorem checkWaterAroundPoint_spec (res : WaterResponse) :
    (checkWaterAroundPoint res = .ok true ↔
      res.ok = true ∧
        ∃ elements, res.body = .ok (some elements) ∧ elements ≠ []) ∧
    (res.ok = false → checkWaterAroundPoint res = .ok false) := by
  obtain ⟨ok, body⟩ := res
  refine ⟨?_, fun h => checkWater_transport_fail _ h⟩
  cases ok
  · simp [checkWaterAroundPoint]
  · cases body with
    | error e => simp [checkWaterAroundPoint]
    | ok ob =>
        cases ob with
        | none => simp [checkWaterAroundPoint]
        | some es =>
            simp [checkWaterAroundPoint, List.length_pos]

/-- Witness for C4: a failed (non-ok) transport yields `false`. -/
theorem checkWaterAroundPoint_spec_witness :
    (WaterResponse.mk false (.ok (some [()]))).ok = false ∧
    checkWaterAroundPoint ⟨false, .ok (some [()])⟩ = .ok false :=
  ⟨rfl, (checkWaterAroundPoint_spec ⟨false, .ok (some [()])⟩).2 rfl⟩

/-- Claim C5: the precipitation check returns the sum of the last 3 hourly
precipitation values of the fetched series (a value ≥ 0 when all series
values are ≥ 0), and on any failure — transport error, parse error, or
missing hourly series — it returns 0 instead of propagating an error. -/
theorem fetchPrecipitation_spec (l prec : List ℚ) (a b c : ℚ)
    (hnn : ∀ x ∈ prec, 0 ≤ x) :
    fetchPrecipitationLastHours .fetchError = 0 ∧
    fetchPrecipitationLastHours .noHourly = 0 ∧
    fetchPrecipitationLastHours .noPrecipitation = 0 ∧
    fetchPrecipitationLastHours (.values (l ++ [a, b, c])) = a + b + c ∧
    0 ≤ fetchPrecipitationLastHours (.values prec) := by
  refine ⟨rfl, rfl, rfl, ?_, ?_⟩
  · have hlen : (l ++ [a, b, c]).length - 3 = l.length := by simp
    have hdrop :
        (l ++ [a, b, c]).drop ((l ++ [a, b, c]).length - 3) = [a, b, c] := by
      rw [hlen]
      exact List.drop_left l [a, b, c]
    simp only [fetchPrecipitationLastHours, hdrop, List.foldl_cons,
      List.foldl_nil]
    ring
  · exact foldl_add_nonneg _ 0 le_rfl
      (fun x hx => hnn x (List.drop_subset _ _ hx))

/-- Witness for C5 at the series `[5, 1, 2, 3]` (last three sum to 6) and
the nonnegative series `[1, 2]`. -/
theorem fetchPrecipitation_spec_witness :
    (∀ x ∈ ([1, 2] : List ℚ), 0 ≤ x) ∧
    fetchPrecipitationLastHours (.values ([5] ++ [1, 2, 3])) = 1 + 2 + 3 ∧
    0 ≤ fetchPrecipitationLastHours (.values [1, 2]) :=
  ⟨by norm_num,
    (fetchPrecipitation_spec [5] [1, 2] 1 2 3 (by norm_num)).2.2.2.1,
    (fetchPrecipitation_spec [5] [1, 2] 1 2 3 (by norm_num)).2.2.2.2⟩

/-- Claim C8: a pinned coordinate is returned unchanged by endpoint
resolution, the address text is ignored (the result is the same for every
address), and no network call is made; hence resolving the same pinned
coordinate twice gives the identical value with no call either time. -/
theorem pinned_resolution (env : Env) (c : Coordinate)
    (addr addr2 : String) :
    resolveEndpoint env (some c) addr = .ok (some c) ∧
    resolveEvents (some c) addr = [] ∧
    resolveEndpoint env (some c) addr = resolveEndpoint env (some c) addr2 :=
  ⟨rfl, rfl, rfl⟩

/-- Claim C3: when both endpoints resolve and the route is obtained, a run
in which every per-sample water check and rain check fails soft still
reaches the final (Done) status with risk Low, water detected no and max
rainfall 0.0 mm, and the in-flight flag ends `false`. -/
theorem soft_failures_reach_done (env : Env) (inp : RunInput)
    (a b : Coordinate) (geometry : List Coordinate)
    (hfrom : resolveEndpoint env inp.origin inp.originAddr = .ok (some a))
    (hto : resolveEndpoint env inp.dest inp.destAddr = .ok (some b))
    (hroute : env.route a b = .ok geometry)
    (hsoft : ∀ p ∈ sampleLineString geometry,
      (env.water p).ok = false ∧ (env.precip p).isSoftFailure = true) :
    (tryBody env inp).2 = .ok ("Low", false, 0) ∧
    finalStatus (handleCheckRoute env inp) =
      some "Risk Level: Low. Mapped water: No, Rain (last 3h): 0.0 mm" ∧
    finalChecking (handleCheckRoute env inp) = false := by
  have hrs := runSamples_soft env (sampleLineString geometry) hsoft
  have htb : (tryBody env inp).2 = .ok ("Low", false, 0) := by
    simp only [tryBody, hfrom, hto, hroute, hrs]
    norm_num [riskLevel]
  refine ⟨htb, ?_, finalChecking_handleCheckRoute env inp⟩
  rw [finalStatus_handleCheckRoute, htb]
  decide

/-- Witness for C3 in the `envSoft` world with pinned endpoints. -/
theorem soft_failures_reach_done_witness :
    resolveEndpoint envSoft inpPinned.origin inpPinned.originAddr =
        .ok (some ⟨1, 1⟩) ∧
    resolveEndpoint envSoft inpPinned.dest inpPinned.destAddr =
        .ok (some ⟨3, 3⟩) ∧
    envSoft.route ⟨1, 1⟩ ⟨3, 3⟩ = .ok [⟨2, 2⟩] ∧
    finalStatus (handleCheckRoute envSoft inpPinned) =
      some "Risk Level: Low. Mapped water: No, Rain (last 3h): 0.0 mm" :=
  ⟨rfl, rfl, rfl,
    (soft_failures_reach_done envSoft inpPinned ⟨1, 1⟩ ⟨3, 3⟩ [⟨2, 2⟩]
      rfl rfl rfl (fun p _ => ⟨rfl, rfl⟩)).2.1⟩

/-- Claim C6: after the last sample the published status contains the risk
level, water yes/no and max rainfall to one decimal; for a 5-vertex route
(hence exactly 1 sample, the first vertex) whose sample reports water and
12 mm of rain, the final status reports `Risk Level: High`. -/
theorem five_vertex_high_scenario (env : Env) (inp : RunInput)
    (a b c1 c2 c3 c4 c5 : Coordinate)
    (hfrom : resolveEndpoint env inp.origin inp.originAddr = .ok (some a))
    (hto : resolveEndpoint env inp.dest inp.destAddr = .ok (some b))
    (hroute : env.route a b = .ok [c1, c2, c3, c4, c5])
    (hwater : checkWaterAroundPoint (env.water c1) = .ok true)
    (hrain : fetchPrecipitationLastHours (env.precip c1) = 12) :
    (∀ (env2 : Env) (inp2 : RunInput) (risk : String) (w : Bool) (m : ℚ),
      (tryBody env2 inp2).2 = .ok (risk, w, m) →
        finalStatus (handleCheckRoute env2 inp2) =
          some ("Risk Level: " ++ risk ++ ". Mapped water: " ++
            (if w then "Yes" else "No") ++ ", Rain (last 3h): " ++
            toFixed1 m ++ " mm")) ∧
    sampleLineString [c1, c2, c3, c4, c5] = [c1] ∧
    (tryBody env inp).2 = .ok ("High", true, 12) ∧
    finalStatus (handleCheckRoute env inp) =
      some "Risk Level: High. Mapped water: Yes, Rain (last 3h): 12.0 mm" := by
  have hgen : ∀ (env2 : Env) (inp2 : RunInput) (risk : String) (w : Bool)
      (m : ℚ),
      (tryBody env2 inp2).2 = .ok (risk, w, m) →
        finalStatus (handleCheckRoute env2 inp2) =
          some ("Risk Level: " ++ risk ++ ". Mapped water: " ++
            (if w then "Yes" else "No") ++ ", Rain (last 3h): " ++
            toFixed1 m ++ " mm") := by
    intro env2 inp2 risk w m hok
    rw [finalStatus_handleCheckRoute, hok]
    rfl
  have hsamp : sampleLineString [c1, c2, c3, c4, c5] = [c1] := by
    simp [sampleLineString, sampleAux]
  have hrun : (runSamples env [c1] false 0).2 = .ok (true, 12) := by
    simp only [runSamples, hwater, hrain]
    norm_num
  have htb : (tryBody env inp).2 = .ok ("High", true, 12) := by
    simp only [tryBody, hfrom, hto, hroute, hsamp, hrun]
    norm_num [riskLevel]
  refine ⟨hgen, hsamp, htb, ?_⟩
  rw [finalStatus_handleCheckRoute, htb]
  decide

/-- Witness for C6 in the `envHigh` world with pinned endpoints. -/
theorem five_vertex_high_scenario_witness :
    envHigh.route ⟨1, 1⟩ ⟨3, 3⟩ =
        .ok [⟨1, 1⟩, ⟨2, 2⟩, ⟨3, 3⟩, ⟨4, 4⟩, ⟨5, 5⟩] ∧
    checkWaterAroundPoint (envHigh.water ⟨1, 1⟩) = .ok true ∧
    fetchPrecipitationLastHours (envHigh.precip ⟨1, 1⟩) = 12 ∧
    finalStatus (handleCheckRoute envHigh inpPinned) =
      some "Risk Level: High. Mapped water: Yes, Rain (last 3h): 12.0 mm" :=
  ⟨rfl, rfl, by norm_num [envHigh, fetchPrecipitationLastHours],
    (five_vertex_high_scenario envHigh inpPinned ⟨1, 1⟩ ⟨3, 3⟩
      ⟨1, 1⟩ ⟨2, 2⟩ ⟨3, 3⟩ ⟨4, 4⟩ ⟨5, 5⟩ rfl rfl rfl rfl
      (by norm_num [envHigh, fetchPrecipitationLastHours])).2.2.2⟩

/-- Claim C7: when destination resolution yields zero geocoding candidates
and no pinned destination exists, the run ends in an Error status and no
call to the routing service, the water-proximity check or the
precipitation check is ever made. -/
theorem destNotFound_no_provider_calls (env : Env) (inp : RunInput)
    (hdest : inp.dest = none)
    (hgeo : env.geocode inp.destAddr = .ok none) :
    (∀ e ∈ handleCheckRoute env inp,
      e.isRouteCall = false ∧ e.isWaterCall = false ∧
        e.isPrecipCall = false) ∧
    ∃ msg, finalStatus (handleCheckRoute env inp) =
      some ("Error: " ++ msg) := by
  have hres : resolveEndpoint env inp.dest inp.destAddr = .ok none := by
    simp [resolveEndpoint, hdest, hgeo]
  have hO := resolveEvents_only_geocode inp.origin inp.originAddr
  have hD := resolveEvents_only_geocode inp.dest inp.destAddr
  cases hfrom : resolveEndpoint env inp.origin inp.originAddr with
  | error e =>
      have htb : tryBody env inp =
          (resolveEvents inp.origin inp.originAddr, .error e) := by
        simp only [tryBody, hfrom]
      constructor
      · intro ev hev
        rcases handleCheckRoute_events env inp ev hev with hin | hui
        · rw [htb] at hin
          exact ⟨(hO ev hin).2.2.1, (hO ev hin).2.2.2.1, (hO ev hin).2.2.2.2⟩
        · exact not_provider_call_of_ui ev hui
      · exact ⟨e, by rw [finalStatus_handleCheckRoute, htb]⟩
  | ok fromOpt =>
      have htb : tryBody env inp =
          (resolveEvents inp.origin inp.originAddr ++
            resolveEvents inp.dest inp.destAddr,
            .error "Invalid locations") := by
        simp only [tryBody, hfrom, hres]
      constructor
      · intro ev hev
        rcases handleCheckRoute_events env inp ev hev with hin | hui
        · rw [htb] at hin
          simp only [List.mem_append] at hin
          rcases hin with hin | hin
          · exact ⟨(hO ev hin).2.2.1, (hO ev hin).2.2.2.1,
              (hO ev hin).2.2.2.2⟩
          · exact ⟨(hD ev hin).2.2.1, (hD ev hin).2.2.2.1,
              (hD ev hin).2.2.2.2⟩
        · exact not_provider_call_of_ui ev hui
      · exact ⟨"Invalid locations",
          by rw [finalStatus_handleCheckRoute, htb]⟩

/-- Witness for C7 in the `envNotFound` world with address inputs. -/
theorem destNotFound_no_provider_calls_witness :
    inpAddresses.dest = none ∧
    envNotFound.geocode inpAddresses.destAddr = .ok none ∧
    ((∀ e ∈ handleCheckRoute envNotFound inpAddresses,
      e.isRouteCall = false ∧ e.isWaterCall = false ∧
        e.isPrecipCall = false) ∧
    ∃ msg, finalStatus (handleCheckRoute envNotFound inpAddresses) =
      some ("Error: " ++ msg)) :=
  ⟨rfl, rfl, destNotFound_no_provider_calls envNotFound inpAddresses rfl rfl⟩

/-- Claim C9: every run starts by raising the in-flight flag and ends by
resetting it to `false` whatever the outcome (success, hard failure or a
throw inside a step), so the button guard `disabled={checking}` re-enables
a fresh run afterwards; while the run is in progress (any proper stage
after the raise) the flag is up and the guard blocks a new run. -/
theorem checking_flag_lifecycle (env : Env) (inp : RunInput) :
    (∃ mid, handleCheckRoute env inp =
        [Event.setStatus "", Event.setChecking true] ++ mid ++
          [Event.setChecking false] ∧
        ∀ e ∈ mid, e.isSetChecking = false) ∧
    buttonDisabled (finalChecking (handleCheckRoute env inp)) = false ∧
    ∀ k, 2 ≤ k → k < (handleCheckRoute env inp).length →
      buttonDisabled (finalChecking ((handleCheckRoute env inp).take k)) =
        true := by
  have hmid : ∀ e ∈ (tryBody env inp).1 ++
      [Event.setStatus
        (match (tryBody env inp).2 with
          | .error e => "Error: " ++ e
          | .ok r => statusString r.1 r.2.1 r.2.2)],
      e.isSetChecking = false := by
    intro e he
    simp only [List.mem_append, List.mem_singleton] at he
    rcases he with he | rfl
    · exact tryBody_no_setChecking env inp e he
    · rfl
  refine ⟨⟨(tryBody env inp).1 ++
      [Event.setStatus
        (match (tryBody env inp).2 with
          | .error e => "Error: " ++ e
          | .ok r => statusString r.1 r.2.1 r.2.2)], ?_, hmid⟩,
    ?_, ?_⟩
  · simp [handleCheckRoute]
  · simp [buttonDisabled, finalChecking_handleCheckRoute]
  · intro k h2 hk
    obtain ⟨j, rfl⟩ : ∃ j, k = j + 2 := ⟨k - 2, by omega⟩
    set mid := (tryBody env inp).1 ++
      [Event.setStatus
        (match (tryBody env inp).2 with
          | .error e => "Error: " ++ e
          | .ok r => statusString r.1 r.2.1 r.2.2)] with hmiddef
    have htr : handleCheckRoute env inp =
        Event.setStatus "" :: Event.setChecking true ::
          (mid ++ [Event.setChecking false]) := by
      simp [handleCheckRoute, hmiddef]
    rw [htr] at hk ⊢
    simp only [List.length_cons, List.length_append,
      List.length_nil] at hk
    have hj : j ≤ mid.length := by omega
    have htake : (mid ++ [Event.setChecking false]).take j = mid.take j :=
      List.take_append_of_le_length hj
    rw [show j + 2 = j + 1 + 1 from rfl, List.take_succ_cons,
      List.take_succ_cons, htake, buttonDisabled]
    show finalChecking (Event.setStatus "" :: Event.setChecking true ::
      mid.take j) = true
    unfold finalChecking
    simp only [List.foldl_cons]
    exact foldl_checking_const (mid.take j) true
      (fun e he => hmid e (List.take_subset _ _ he))

/-- Witness for C9 in the `envRouteFail` world: the guard is up two steps
into the run and down after it. -/
theorem checking_flag_lifecycle_witness :
    2 ≤ 2 ∧ 2 < (handleCheckRoute envRouteFail inpPinned).length ∧
    buttonDisabled
      (finalChecking ((handleCheckRoute envRouteFail inpPinned).take 2)) =
        true ∧
    buttonDisabled (finalChecking (handleCheckRoute envRouteFail inpPinned)) =
      false :=
  ⟨le_refl 2, by norm_num [handleCheckRoute, tryBody, envRouteFail,
      inpPinned, resolveEndpoint, resolveEvents],
    (checking_flag_lifecycle envRouteFail inpPinned).2.2 2 (le_refl 2)
      (by norm_num [handleCheckRoute, tryBody, envRouteFail,
        inpPinned, resolveEndpoint, resolveEvents]),
    (checking_flag_lifecycle envRouteFail inpPinned).2.1⟩

/-- Claim C10: when the origin has no pin and its geocoding returns zero
candidates, and the destination has no pin either, the destination
geocoding query is still issued (the run does not abort at the first
failed endpoint) before the run ends in an Error status. -/
theorem dest_geocode_still_issued (env : Env) (inp : RunInput)
    (horig : inp.origin = none)
    (hogeo : env.geocode inp.originAddr = .ok none)
    (hdest : inp.dest = none) :
    ∃ tail, handleCheckRoute env inp =
      [Event.setStatus "", Event.setChecking true,
        Event.geocodeCall inp.originAddr,
        Event.geocodeCall inp.destAddr] ++ tail ∧
      ∃ msg, finalStatus (handleCheckRoute env inp) =
        some ("Error: " ++ msg) := by
  have hfrom : resolveEndpoint env inp.origin inp.originAddr = .ok none := by
    simp [resolveEndpoint, horig, hogeo]
  cases hto : resolveEndpoint env inp.dest inp.destAddr with
  | error e =>
      have htb : tryBody env inp =
          ([Event.geocodeCall inp.originAddr,
            Event.geocodeCall inp.destAddr], .error e) := by
        simp only [tryBody, hfrom, hto]
        simp [resolveEvents, horig, hdest]
      exact ⟨[Event.setStatus ("Error: " ++ e), Event.setChecking false],
        by simp [handleCheckRoute, htb],
        e, by rw [finalStatus_handleCheckRoute, htb]⟩
  | ok toOpt =>
      have htb : tryBody env inp =
          ([Event.geocodeCall inp.originAddr,
            Event.geocodeCall inp.destAddr], .error "Invalid locations") := by
        simp only [tryBody, hfrom, hto]
        cases toOpt <;> simp [resolveEvents, horig, hdest]
      exact ⟨[Event.setStatus "Error: Invalid locations",
          Event.setChecking false],
        by simp [handleCheckRoute, htb],
        "Invalid locations", by rw [finalStatus_handleCheckRoute, htb]⟩

/-- Witness for C10 in the `envNotFound` world with address inputs. -/
theorem dest_geocode_still_issued_witness :
    inpAddresses.origin = none ∧
    envNotFound.geocode inpAddresses.originAddr = .ok none ∧
    inpAddresses.dest = none ∧
    ∃ tail, handleCheckRoute envNotFound inpAddresses =
      [Event.setStatus "", Event.setChecking true,
        Event.geocodeCall inpAddresses.originAddr,
        Event.geocodeCall inpAddresses.destAddr] ++ tail ∧
      ∃ msg, finalStatus (handleCheckRoute envNotFound inpAddresses) =
        some ("Error: " ++ msg) :=
  ⟨rfl, rfl, rfl,
    dest_geocode_still_issued envNotFound inpAddresses rfl rfl rfl⟩

end Waterlogging
